import Mathlib

/-!
Verification of the proxy meta-object dispatcher
(`src/core/src/avm2/object/proxy_object.rs`).

The dispatcher intercepts every property operation on a proxy instance and
delegates it to a script-level handler method addressed under the reserved
proxy namespace.  The dispatcher itself is embedded faithfully from the
source; its collaborators (the namespace model, the class-metadata query,
the coercion contracts, the call dispatcher) live outside the given source
files and are modelled from the specification's contracts in §3 and §6.
-/

namespace ProxySpec

/-- Modelled from the spec: the `Namespace` data model is not among the given
source files.  §3: a tagged variant with `Any` (wildcard), `Public`
(default/public namespace) and `Named(uri)` (explicit namespace). -/
inductive Namespace where
  | any
  | public_
  | named (uri : String)
deriving DecidableEq, Repr

/-- Modelled from the spec: `is_any` recognises the wildcard variant. -/
def Namespace.is_any : Namespace → Bool
  | .any => true
  | _ => false

/-- Modelled from the spec: `is_public` recognises the public/default variant. -/
def Namespace.is_public : Namespace → Bool
  | .public_ => true
  | _ => false

/-- Modelled from the spec: `is_namespace` recognises the explicitly named
variant. -/
def Namespace.is_namespace : Namespace → Bool
  | .named _ => true
  | _ => false

/-- A resolved (namespace, local name) pair; §3 `QName`. -/
structure QName where
  ns : Namespace
  local_name : String
deriving DecidableEq, Repr

/-- `QName::new(namespace, local_name)`. -/
def QName.new (ns : Namespace) (local_name : String) : QName :=
  ⟨ns, local_name⟩

/-- The VM value model, reduced to the variants the dispatcher touches.
Modelled from the spec: the full `Value` type is not among the given source
files; floating-point numbers are modelled as integers, which is enough for
the claims (none depends on float-specific behaviour). -/
inductive Value where
  | undefined
  | null
  | boolean (b : Bool)
  | number (n : Int)
  | string (s : String)
  | qname (q : QName)
deriving DecidableEq, Repr

/-- Modelled from the spec (§6 coercion contract):
`coerce_to_boolean(Value) -> bool`, never fails. -/
def Value.coerce_to_boolean : Value → Bool
  | .undefined => false
  | .null => false
  | .boolean b => b
  | .number n => decide (n ≠ 0)
  | .string s => !s.isEmpty
  | .qname _ => true

/-- Modelled from the spec (§6 coercion contract):
`coerce_to_u32(Value, context) -> Result<u32, Error>`, failing on
non-coercible values; numbers are reduced modulo 2^32. -/
def Value.coerce_to_u32 : Value → Except String Nat
  | .undefined => .ok 0
  | .null => .ok 0
  | .boolean b => .ok (if b then 1 else 0)
  | .number n => .ok (n % (2 ^ 32 : Int)).toNat
  | .string _ => .error "non-coercible value"
  | .qname _ => .error "non-coercible value"

/-- Modelled from the spec (§6 QName construction contract):
`QNameObject::from_qname` wraps a `QName` as a script value.  In the source
it may fail only on interpreter-level resource exhaustion, a non-semantic
condition, so it is modelled as total. -/
def QNameObject.from_qname (q : QName) : Value :=
  .qname q

/-- Rust's `Debug` rendering of an `Option` of a string, as produced by the
dispatcher's `format!("... {:?}", multiname.local_name())` error messages. -/
def debug_option_name : Option String → String
  | some s => "Some(\"" ++ s ++ "\")"
  | none => "None"

/-- An unresolved lookup key; §3 `Multiname`: an optional local name and an
ordered sequence of candidate namespaces. -/
structure Multiname where
  local_name : Option String
  namespace_set : List Namespace
deriving DecidableEq, Repr

/-- Modelled from the spec: the generic base object storage
(`ScriptObjectData`), an external collaborator; the dispatcher never reads
or writes it directly, but delegate calls are reentrant script code that
may. -/
structure ScriptObjectData where
  values : List (String × Value)
deriving DecidableEq, Repr

/-- Modelled from the spec (§6 class metadata contract): the class
definition carries the `sealed` flag. -/
structure ClassDef where
  is_sealed : Bool
deriving DecidableEq, Repr

/-- The proxy instance: its base storage plus the class metadata reachable
through `instance_of_class_definition` (an `Option`). -/
structure ProxyObject where
  base : ScriptObjectData
  class_def : Option ClassDef
deriving DecidableEq, Repr

/-- `self.instance_of_class_definition()` (§6 class metadata contract). -/
def ProxyObject.instance_of_class_definition (self : ProxyObject) :
    Option ClassDef :=
  self.class_def

/-- One delegate invocation: the reserved-namespace method name and the
argument list passed to the call dispatcher. -/
structure DelegateCall where
  method : String
  args : List Value
deriving DecidableEq, Repr

/-- Modelled from the spec (§6 call dispatcher contract): the activation
supplies `call_property` for the eight reserved delegate names.  The
delegate body is reentrant script code, so it threads the base storage:
given the method name, the arguments and the current storage it returns the
delegate's result (or a propagated failure) and the possibly-updated
storage. -/
structure Activation where
  delegate : String → List Value → ScriptObjectData →
    Except String Value × ScriptObjectData

/-- The observable outcome of one dispatcher operation: the exact sequence
of delegate calls performed, the operation's result, and the instance's
base storage afterwards. -/
structure OpResult (α : Type) where
  trace : List DelegateCall
  result : Except String α
  base : ScriptObjectData

/-- The namespace scan shared by GET/SET/CALL/DELETE (the loop
`if let Some(local_name) ... for namespace in multiname.namespace_set() ...
if namespace.is_any() || namespace.is_public() || namespace.is_namespace()`):
the first qualifying namespace in declared order, paired with the local
name, or `none` when there is no local name or no namespace qualifies. -/
def Multiname.first_qualifying (multiname : Multiname) :
    Option (Namespace × String) :=
  match multiname.local_name with
  | some local_name =>
    (multiname.namespace_set.find?
        (fun ns => ns.is_any || ns.is_public || ns.is_namespace)).map
      (fun ns => (ns, local_name))
  | none => none

/-- `ProxyObject::get_property_local`. -/
def get_property_local (self : ProxyObject) (multiname : Multiname)
    (activation : Activation) : OpResult Value :=
  match multiname.first_qualifying with
  | some (ns, local_name) =>
    let qname := QNameObject.from_qname (QName.new ns local_name)
    let call := activation.delegate "getProperty" [qname] self.base
    ⟨[⟨"getProperty", [qname]⟩], call.1, call.2⟩
  | none =>
    if !((self.instance_of_class_definition.map
        (fun c => c.is_sealed)).getD false) then
      ⟨[], .ok .undefined, self.base⟩
    else
      ⟨[], .error ("Cannot get undefined property "
          ++ debug_option_name multiname.local_name), self.base⟩

/-- `ProxyObject::set_property_local`. -/
def set_property_local (self : ProxyObject) (multiname : Multiname)
    (value : Value) (activation : Activation) : OpResult Unit :=
  match multiname.first_qualifying with
  | some (ns, local_name) =>
    let qname := QNameObject.from_qname (QName.new ns local_name)
    let call := activation.delegate "setProperty" [qname, value] self.base
    ⟨[⟨"setProperty", [qname, value]⟩],
      match call.1 with
      | .ok _ => .ok ()
      | .error e => .error e,
      call.2⟩
  | none =>
    if !((self.instance_of_class_definition.map
        (fun c => c.is_sealed)).getD false) then
      match multiname.local_name with
      | some _ => ⟨[], .ok (), self.base⟩
      | none =>
        ⟨[], .error "Cannot set undefined property using any name", self.base⟩
    else
      ⟨[], .error ("Cannot set undefined property "
          ++ debug_option_name multiname.local_name), self.base⟩

/-- `ProxyObject::call_property_local`. -/
def call_property_local (self : ProxyObject) (multiname : Multiname)
    (arguments : List Value) (activation : Activation) : OpResult Value :=
  match multiname.first_qualifying with
  | some (ns, local_name) =>
    let qname := QNameObject.from_qname (QName.new ns local_name)
    let args := qname :: arguments
    let call := activation.delegate "callProperty" args self.base
    ⟨[⟨"callProperty", args⟩], call.1, call.2⟩
  | none =>
    ⟨[], .error ("Attempted to call undefined property "
        ++ debug_option_name multiname.local_name), self.base⟩

/-- `ProxyObject::delete_property_local` (note the source's argument order:
activation before multiname). -/
def delete_property_local (self : ProxyObject) (activation : Activation)
    (multiname : Multiname) : OpResult Bool :=
  match multiname.first_qualifying with
  | some (ns, local_name) =>
    let qname := QNameObject.from_qname (QName.new ns local_name)
    let call := activation.delegate "deleteProperty" [qname] self.base
    ⟨[⟨"deleteProperty", [qname]⟩],
      match call.1 with
      | .ok v => .ok v.coerce_to_boolean
      | .error e => .error e,
      call.2⟩
  | none =>
    ⟨[], .ok (!((self.instance_of_class_definition.map
        (fun c => c.is_sealed)).getD false)), self.base⟩

/-- `ProxyObject::has_property_via_in`.  The source calls
`name.local_name().unwrap()`: a multiname without a local name panics, which
the embedding renders as `none` (a fault, distinct from every handled
outcome `some _`). -/
def has_property_via_in (self : ProxyObject) (activation : Activation)
    (name : Multiname) : Option (OpResult Bool) :=
  match name.local_name with
  | none => none
  | some local_name =>
    let call :=
      activation.delegate "hasProperty" [Value.string local_name] self.base
    some ⟨[⟨"hasProperty", [Value.string local_name]⟩],
      match call.1 with
      | .ok v => .ok v.coerce_to_boolean
      | .error e => .error e,
      call.2⟩

/-- `ProxyObject::get_next_enumerant`.  The source's
`Ok(Some(self.call_property(..)?.coerce_to_u32(activation)?))` is the
monadic bind of the delegate's result through the coercion, with the
success value wrapped in `Some`. -/
def get_next_enumerant (self : ProxyObject) (last_index : Nat)
    (activation : Activation) : OpResult (Option Nat) :=
  let call := activation.delegate "nextNameIndex"
    [Value.number (Int.ofNat last_index)] self.base
  ⟨[⟨"nextNameIndex", [Value.number (Int.ofNat last_index)]⟩],
    (call.1.bind Value.coerce_to_u32).map some,
    call.2⟩

/-- `ProxyObject::get_enumerant_name`. -/
def get_enumerant_name (self : ProxyObject) (index : Nat)
    (activation : Activation) : OpResult Value :=
  let call := activation.delegate "nextName"
    [Value.number (Int.ofNat index)] self.base
  ⟨[⟨"nextName", [Value.number (Int.ofNat index)]⟩], call.1, call.2⟩

/-- `ProxyObject::get_enumerant_value`. -/
def get_enumerant_value (self : ProxyObject) (index : Nat)
    (activation : Activation) : OpResult Value :=
  let call := activation.delegate "nextValue"
    [Value.number (Int.ofNat index)] self.base
  ⟨[⟨"nextValue", [Value.number (Int.ofNat index)]⟩], call.1, call.2⟩

/-- A concrete proxy instance of a dynamic (unsealed) class, for witnesses. -/
def dynProxy : ProxyObject :=
  ⟨⟨[]⟩, some ⟨false⟩⟩

/-- A concrete proxy instance of a sealed class, for witnesses. -/
def sealedProxy : ProxyObject :=
  ⟨⟨[]⟩, some ⟨true⟩⟩

/-- A concrete proxy instance with no associated class definition, for
witnesses. -/
def bareProxy : ProxyObject :=
  ⟨⟨[]⟩, none⟩

/-- A concrete activation whose delegates all succeed with the string
`"hit"` and leave the storage unchanged, for witnesses. -/
def hitActivation : Activation :=
  ⟨fun _ _ b => (.ok (.string "hit"), b)⟩

/-- A concrete activation whose delegates all succeed with the boolean
`true`, for witnesses. -/
def trueActivation : Activation :=
  ⟨fun _ _ b => (.ok (.boolean true), b)⟩

/-- A concrete activation whose delegates all succeed with the number `3`,
for witnesses. -/
def threeActivation : Activation :=
  ⟨fun _ _ b => (.ok (.number 3), b)⟩

/-- If the multiname has no local name, or no namespace of its set passes
the qualification test, the shared scan comes up empty. -/
theorem Multiname.first_qualifying_eq_none (mn : Multiname)
    (h : mn.local_name = none
      ∨ mn.namespace_set.find?
          (fun ns => ns.is_any || ns.is_public || ns.is_namespace) = none) :
    mn.first_qualifying = none := by
  unfold Multiname.first_qualifying
  rcases h with h | h
  · rw [h]
  · cases hl : mn.local_name with
    | none => rfl
    | some l => rw [h]; rfl

/-- If the multiname has a local name and the qualification test accepts
some namespace, the shared scan yields the first such namespace with that
local name. -/
theorem Multiname.first_qualifying_eq_some (mn : Multiname) (l : String)
    (ns : Namespace) (hl : mn.local_name = some l)
    (hns : mn.namespace_set.find?
        (fun n => n.is_any || n.is_public || n.is_namespace) = some ns) :
    mn.first_qualifying = some (ns, l) := by
  unfold Multiname.first_qualifying
  rw [hl, hns]
  rfl

/-- C1, as frozen, fails on the code: the multiname
`⟨none, [Public]⟩` has a qualifying namespace (`Public` passes the
qualification test) yet GET performs no delegate call at all, because the
scan requires a local name before it even looks at the namespace set. -/
theorem c1_counterexample :
    ((Multiname.mk none [Namespace.public_]).namespace_set.any
        (fun ns => ns.is_any || ns.is_public || ns.is_namespace)) = true
    ∧ (get_property_local dynProxy ⟨none, [Namespace.public_]⟩
        hitActivation).trace = [] :=
  ⟨rfl, rfl⟩

/-- C1 (amended): for every multiname that has a local name and at least
one qualifying namespace, GET, SET, CALL and DELETE each invoke exactly one
delegate call, whose QName argument is built from the first qualifying
namespace in declared order (never a later one). -/
theorem c1_first_qualifying_delegation (self : ProxyObject) (mn : Multiname)
    (l : String) (ns : Namespace) (act : Activation) (value : Value)
    (arguments : List Value)
    (hl : mn.local_name = some l)
    (hns : mn.namespace_set.find?
        (fun n => n.is_any || n.is_public || n.is_namespace) = some ns) :
    (get_property_local self mn act).trace
      = [⟨"getProperty", [QNameObject.from_qname (QName.new ns l)]⟩]
    ∧ (set_property_local self mn value act).trace
      = [⟨"setProperty", [QNameObject.from_qname (QName.new ns l), value]⟩]
    ∧ (call_property_local self mn arguments act).trace
      = [⟨"callProperty",
          QNameObject.from_qname (QName.new ns l) :: arguments⟩]
    ∧ (delete_property_local self act mn).trace
      = [⟨"deleteProperty", [QNameObject.from_qname (QName.new ns l)]⟩] := by
  have hq := Multiname.first_qualifying_eq_some mn l ns hl hns
  refine ⟨?_, ?_, ?_, ?_⟩ <;>
    simp [get_property_local, set_property_local, call_property_local,
      delete_property_local, hq]

/-- Witness for C1's amended theorem at a concrete multiname whose first
qualifying namespace (`named "u"`) precedes another candidate. -/
theorem c1_witness :
    (get_property_local dynProxy
        ⟨some "foo", [Namespace.named "u", Namespace.public_]⟩
        hitActivation).trace
      = [⟨"getProperty",
          [QNameObject.from_qname (QName.new (Namespace.named "u") "foo")]⟩]
    ∧ (set_property_local dynProxy
        ⟨some "foo", [Namespace.named "u", Namespace.public_]⟩
        Value.null hitActivation).trace
      = [⟨"setProperty",
          [QNameObject.from_qname (QName.new (Namespace.named "u") "foo"),
            Value.null]⟩]
    ∧ (call_property_local dynProxy
        ⟨some "foo", [Namespace.named "u", Namespace.public_]⟩
        [Value.null] hitActivation).trace
      = [⟨"callProperty",
          QNameObject.from_qname (QName.new (Namespace.named "u") "foo")
            :: [Value.null]⟩]
    ∧ (delete_property_local dynProxy hitActivation
        ⟨some "foo", [Namespace.named "u", Namespace.public_]⟩).trace
      = [⟨"deleteProperty",
          [QNameObject.from_qname (QName.new (Namespace.named "u") "foo")]⟩] :=
  c1_first_qualifying_delegation dynProxy
    ⟨some "foo", [Namespace.named "u", Namespace.public_]⟩
    "foo" (Namespace.named "u") hitActivation Value.null [Value.null]
    rfl rfl

/-- C2: with no qualifying namespace (or no local name), GET on a sealed
class fails with the undefined-property error carrying the attempted local
name (or its absence), and GET on a dynamic (unsealed) class succeeds with
the undefined value; neither path performs a delegate call. -/
theorem c2_get_fallback (self : ProxyObject) (mn : Multiname)
    (act : Activation) (c : ClassDef)
    (h : mn.local_name = none
      ∨ mn.namespace_set.find?
          (fun ns => ns.is_any || ns.is_public || ns.is_namespace) = none)
    (hc : self.instance_of_class_definition = some c) :
    (c.is_sealed = true →
      (get_property_local self mn act).result
        = .error ("Cannot get undefined property "
            ++ debug_option_name mn.local_name)
      ∧ (get_property_local self mn act).trace = [])
    ∧ (c.is_sealed = false →
      (get_property_local self mn act).result = .ok .undefined
      ∧ (get_property_local self mn act).trace = []) := by
  have hq := Multiname.first_qualifying_eq_none mn h
  have hc' : self.class_def = some c := hc
  constructor <;> intro hs <;> refine ⟨?_, ?_⟩ <;>
    simp [get_property_local, hq, ProxyObject.instance_of_class_definition,
      hc', hs]

/-- Witness for C2 at concrete inputs: a sealed instance fails with the
message naming `"foo"`, a dynamic instance yields the undefined value. -/
theorem c2_witness :
    (get_property_local sealedProxy ⟨some "foo", []⟩ hitActivation).result
      = .error ("Cannot get undefined property "
          ++ debug_option_name (some "foo"))
    ∧ (get_property_local dynProxy ⟨some "foo", []⟩ hitActivation).result
      = .ok .undefined :=
  ⟨((c2_get_fallback sealedProxy ⟨some "foo", []⟩ hitActivation ⟨true⟩
      (Or.inr rfl) rfl).1 rfl).1,
    ((c2_get_fallback dynProxy ⟨some "foo", []⟩ hitActivation ⟨false⟩
      (Or.inr rfl) rfl).2 rfl).1⟩

/-- C3: with a local name but no qualifying namespace, SET on a dynamic
(unsealed) class succeeds, performs no delegate call and leaves the base
storage unchanged. -/
theorem c3_set_dynamic_noop (self : ProxyObject) (mn : Multiname)
    (value : Value) (act : Activation) (c : ClassDef) (l : String)
    (hl : mn.local_name = some l)
    (hns : mn.namespace_set.find?
        (fun ns => ns.is_any || ns.is_public || ns.is_namespace) = none)
    (hc : self.instance_of_class_definition = some c)
    (hdyn : c.is_sealed = false) :
    (set_property_local self mn value act).result = .ok ()
    ∧ (set_property_local self mn value act).trace = []
    ∧ (set_property_local self mn value act).base = self.base := by
  have hq := Multiname.first_qualifying_eq_none mn (Or.inr hns)
  have hc' : self.class_def = some c := hc
  refine ⟨?_, ?_, ?_⟩ <;>
    simp [set_property_local, hq, ProxyObject.instance_of_class_definition,
      hc', hdyn, hl]

/-- Witness for C3 at concrete inputs: the silently-dropped write. -/
theorem c3_witness :
    (set_property_local dynProxy ⟨some "foo", []⟩ Value.null
        hitActivation).result = .ok ()
    ∧ (set_property_local dynProxy ⟨some "foo", []⟩ Value.null
        hitActivation).trace = []
    ∧ (set_property_local dynProxy ⟨some "foo", []⟩ Value.null
        hitActivation).base = dynProxy.base :=
  c3_set_dynamic_noop dynProxy ⟨some "foo", []⟩ Value.null hitActivation
    ⟨false⟩ "foo" rfl rfl rfl rfl

/-- C4, as frozen, fails on the code: on a sealed class, SET with a
multiname that has neither a namespace nor a local name fails with the
undefined-property message, not with the distinct InvalidSetTarget message
"Cannot set undefined property using any name". -/
theorem c4_counterexample :
    (set_property_local sealedProxy ⟨none, []⟩ Value.null
        hitActivation).result
      = .error "Cannot set undefined property None"
    ∧ "Cannot set undefined property None"
      ≠ "Cannot set undefined property using any name" :=
  ⟨rfl, by decide⟩

/-- C4 (amended): for every multiname with no local name, SET on a dynamic
(unsealed) class always fails with the InvalidSetTarget error ("Cannot set
undefined property using any name"), with no delegate call; on a sealed
class it fails with the undefined-property error instead. -/
theorem c4_set_no_local_name (self : ProxyObject) (mn : Multiname)
    (value : Value) (act : Activation) (c : ClassDef)
    (hl : mn.local_name = none)
    (hc : self.instance_of_class_definition = some c) :
    (c.is_sealed = false →
      (set_property_local self mn value act).result
        = .error "Cannot set undefined property using any name")
    ∧ (c.is_sealed = true →
      (set_property_local self mn value act).result
        = .error ("Cannot set undefined property "
            ++ debug_option_name mn.local_name))
    ∧ (set_property_local self mn value act).trace = [] := by
  have hq := Multiname.first_qualifying_eq_none mn (Or.inl hl)
  have hc' : self.class_def = some c := hc
  refine ⟨fun hs => ?_, fun hs => ?_, ?_⟩
  · simp [set_property_local, hq, ProxyObject.instance_of_class_definition,
      hc', hs, hl]
  · simp [set_property_local, hq, ProxyObject.instance_of_class_definition,
      hc', hs, hl]
  · cases hs : c.is_sealed <;>
      simp [set_property_local, hq, ProxyObject.instance_of_class_definition,
        hc', hs, hl]

/-- Witness for C4's amended theorem at a concrete dynamic instance. -/
theorem c4_witness :
    (set_property_local dynProxy ⟨none, []⟩ Value.null hitActivation).result
      = .error "Cannot set undefined property using any name"
    ∧ (set_property_local dynProxy ⟨none, []⟩ Value.null
        hitActivation).trace = [] :=
  ⟨(c4_set_no_local_name dynProxy ⟨none, []⟩ Value.null hitActivation
      ⟨false⟩ rfl rfl).1 rfl,
    (c4_set_no_local_name dynProxy ⟨none, []⟩ Value.null hitActivation
      ⟨false⟩ rfl rfl).2.2⟩

/-- C5: with no qualifying namespace (or no local name), CALL always fails
with the error naming the attempted local name (or its absence), performs
no delegate call, and does so for every instance — sealed, dynamic or
class-less alike. -/
theorem c5_call_no_qualifying (self : ProxyObject) (mn : Multiname)
    (arguments : List Value) (act : Activation)
    (h : mn.local_name = none
      ∨ mn.namespace_set.find?
          (fun ns => ns.is_any || ns.is_public || ns.is_namespace) = none) :
    (call_property_local self mn arguments act).result
      = .error ("Attempted to call undefined property "
          ++ debug_option_name mn.local_name)
    ∧ (call_property_local self mn arguments act).trace = [] := by
  have hq := Multiname.first_qualifying_eq_none mn h
  exact ⟨by simp [call_property_local, hq], by simp [call_property_local, hq]⟩

/-- Witness for C5 at concrete inputs, one sealed and one dynamic. -/
theorem c5_witness :
    (call_property_local sealedProxy ⟨some "foo", []⟩ [] hitActivation).result
      = .error ("Attempted to call undefined property "
          ++ debug_option_name (some "foo"))
    ∧ (call_property_local dynProxy ⟨some "foo", []⟩ [] hitActivation).result
      = .error ("Attempted to call undefined property "
          ++ debug_option_name (some "foo")) :=
  ⟨(c5_call_no_qualifying sealedProxy ⟨some "foo", []⟩ [] hitActivation
      (Or.inr rfl)).1,
    (c5_call_no_qualifying dynProxy ⟨some "foo", []⟩ [] hitActivation
      (Or.inr rfl)).1⟩

/-- C6: with no qualifying namespace (or no local name), DELETE never
fails: it succeeds with `true` on a dynamic (unsealed) class and with
`false` on a sealed class, performing no delegate call. -/
theorem c6_delete_fallback (self : ProxyObject) (mn : Multiname)
    (act : Activation) (c : ClassDef)
    (h : mn.local_name = none
      ∨ mn.namespace_set.find?
          (fun ns => ns.is_any || ns.is_public || ns.is_namespace) = none)
    (hc : self.instance_of_class_definition = some c) :
    (delete_property_local self act mn).result = .ok (!c.is_sealed)
    ∧ (delete_property_local self act mn).trace = [] := by
  have hq := Multiname.first_qualifying_eq_none mn h
  have hc' : self.class_def = some c := hc
  exact ⟨by simp [delete_property_local, hq,
      ProxyObject.instance_of_class_definition, hc'],
    by simp [delete_property_local, hq]⟩

/-- Witness for C6 at concrete inputs: `true` on dynamic, `false` on
sealed. -/
theorem c6_witness :
    (delete_property_local dynProxy hitActivation
        ⟨some "foo", []⟩).result = .ok true
    ∧ (delete_property_local sealedProxy hitActivation
        ⟨some "foo", []⟩).result = .ok false :=
  ⟨(c6_delete_fallback dynProxy ⟨some "foo", []⟩ hitActivation ⟨false⟩
      (Or.inr rfl) rfl).1,
    (c6_delete_fallback sealedProxy ⟨some "foo", []⟩ hitActivation ⟨true⟩
      (Or.inr rfl) rfl).1⟩

/-- C7: with a local name present, the existence test delegates exactly
once to `hasProperty` with the local name as the single argument and
returns the delegate's result coerced to a boolean — with no namespace
scan and no sealed/dynamic fallback, whatever the namespace set or the
class metadata. -/
theorem c7_has_property_delegates (self : ProxyObject) (act : Activation)
    (name : Multiname) (l : String) (hl : name.local_name = some l) :
    has_property_via_in self act name
      = some ⟨[⟨"hasProperty", [Value.string l]⟩],
          match (act.delegate "hasProperty" [Value.string l] self.base).1 with
          | .ok v => .ok v.coerce_to_boolean
          | .error e => .error e,
          (act.delegate "hasProperty" [Value.string l] self.base).2⟩ := by
  simp [has_property_via_in, hl]

/-- Witness for C7 at a sealed instance with a nonempty namespace set: the
existence test still delegates, ignoring both. -/
theorem c7_witness :
    has_property_via_in sealedProxy trueActivation
        ⟨some "k", [Namespace.public_]⟩
      = some ⟨[⟨"hasProperty", [Value.string "k"]⟩], .ok true,
          sealedProxy.base⟩ :=
  (c7_has_property_delegates sealedProxy trueActivation
    ⟨some "k", [Namespace.public_]⟩ "k" rfl).trans rfl

/-- C8: the existence test's need for a local name is an unchecked
precondition — the operation faults (modelled as `none`) exactly when the
multiname carries no local name, so under the precondition the faulting
branch is unreachable. -/
theorem c8_has_property_precondition (self : ProxyObject) (act : Activation)
    (name : Multiname) :
    has_property_via_in self act name = none ↔ name.local_name = none := by
  cases hl : name.local_name <;> simp [has_property_via_in, hl]

/-- C9: `get_next_enumerant` delegates once to `nextNameIndex` with the
last index, coerces the delegate's result to an unsigned 32-bit integer
and always reports it as a present (`some`) index — never as the absent
`none`, even for the value 0 — while `get_enumerant_name` and
`get_enumerant_value` delegate to `nextName` and `nextValue` and return the
delegate's result unmodified. -/
theorem c9_enumeration_delegation (self : ProxyObject)
    (last_index index : Nat) (act : Activation) :
    (get_next_enumerant self last_index act).trace
      = [⟨"nextNameIndex", [Value.number (Int.ofNat last_index)]⟩]
    ∧ (get_next_enumerant self last_index act).result
      = ((act.delegate "nextNameIndex" [Value.number (Int.ofNat last_index)]
          self.base).1.bind Value.coerce_to_u32).map some
    ∧ (get_next_enumerant self last_index act).result ≠ Except.ok none
    ∧ (get_enumerant_name self index act).trace
      = [⟨"nextName", [Value.number (Int.ofNat index)]⟩]
    ∧ (get_enumerant_name self index act).result
      = (act.delegate "nextName" [Value.number (Int.ofNat index)] self.base).1
    ∧ (get_enumerant_value self index act).trace
      = [⟨"nextValue", [Value.number (Int.ofNat index)]⟩]
    ∧ (get_enumerant_value self index act).result
      = (act.delegate "nextValue" [Value.number (Int.ofNat index)]
          self.base).1 := by
  refine ⟨rfl, rfl, ?_, rfl, rfl, rfl, rfl⟩
  dsimp only [get_next_enumerant]
  generalize act.delegate "nextNameIndex"
    [Value.number (Int.ofNat last_index)] self.base = p
  generalize p.1.bind Value.coerce_to_u32 = q
  cases q <;> simp [Except.map]

/-- C10: an instance with no associated class definition is treated as
dynamic on every fallback path — GET yields the undefined value, SET with
a local name succeeds, DELETE returns `true`. -/
theorem c10_no_class_is_dynamic (self : ProxyObject) (mn : Multiname)
    (value : Value) (act : Activation)
    (hc : self.instance_of_class_definition = none)
    (h : mn.local_name = none
      ∨ mn.namespace_set.find?
          (fun ns => ns.is_any || ns.is_public || ns.is_namespace) = none) :
    (get_property_local self mn act).result = .ok .undefined
    ∧ (∀ l, mn.local_name = some l →
        (set_property_local self mn value act).result = .ok ())
    ∧ (delete_property_local self act mn).result = .ok true := by
  have hq := Multiname.first_qualifying_eq_none mn h
  have hc' : self.class_def = none := hc
  refine ⟨?_, fun l hl => ?_, ?_⟩
  · simp [get_property_local, hq,
      ProxyObject.instance_of_class_definition, hc']
  · simp [set_property_local, hq,
      ProxyObject.instance_of_class_definition, hc', hl]
  · simp [delete_property_local, hq,
      ProxyObject.instance_of_class_definition, hc']

/-- Witness for C10 at a concrete class-less instance. -/
theorem c10_witness :
    (get_property_local bareProxy ⟨some "p", []⟩ hitActivation).result
      = .ok .undefined
    ∧ (set_property_local bareProxy ⟨some "p", []⟩ Value.null
        hitActivation).result = .ok ()
    ∧ (delete_property_local bareProxy hitActivation
        ⟨some "p", []⟩).result = .ok true :=
  ⟨(c10_no_class_is_dynamic bareProxy ⟨some "p", []⟩ Value.null hitActivation
      rfl (Or.inr rfl)).1,
    (c10_no_class_is_dynamic bareProxy ⟨some "p", []⟩ Value.null hitActivation
      rfl (Or.inr rfl)).2.1 "p" rfl,
    (c10_no_class_is_dynamic bareProxy ⟨some "p", []⟩ Value.null hitActivation
      rfl (Or.inr rfl)).2.2⟩

end ProxySpec
